import Mathlib

/-!
Verification of the BrightDock device-state synchronization coordinator
(`custom_components/hdmi_assistant`): a shallow embedding of
`coordinator.py`, `number.py`, `select.py` and `sensor.py`, with theorems
settling the behavioural claims about polling, optimistic writes, the write
queue and error handling.

Python dictionaries are embedded as insertion-ordered association lists
(`dict[k] = v` updates in place or appends; `dict.get` scans), the HTTP
control surface as an explicit oracle (a pure function from request to
result), and the two background tasks as trace-producing functions plus a
labelled transition system for the lock discipline.
-/

namespace BrightDock

/-- `d.get(k)` on an insertion-ordered association list. -/
def lookupA {α β : Type} [DecidableEq α] : List (α × β) → α → Option β
  | [], _ => none
  | (k, v) :: rest, k' => if k' = k then some v else lookupA rest k'

/-- `d[k] = v` on an insertion-ordered association list: overwrite the
existing entry in place, or append a new one. -/
def setA {α β : Type} [DecidableEq α] : List (α × β) → α → β → List (α × β)
  | [], k, v => [(k, v)]
  | (k0, v0) :: rest, k, v =>
      if k = k0 then (k, v) :: rest else (k0, v0) :: setA rest k v

/-- A monitor as returned by `GET /monitors`: `{"id": ..., "model": ...}`. -/
structure Monitor where
  id : Nat
  model : String
deriving DecidableEq, Repr

/-- `HDMIDataUpdateCoordinator.CONTROLS`. -/
def CONTROLS : List String := ["brightness", "contrast", "input_source"]

/-- The coordinator's `self.data` dictionary: monitor list, per-control
per-monitor values, and per-monitor input-source option tables
(hex-code key to display label). -/
structure CoordData where
  monitors : List Monitor
  controls : List (String × List (Nat × Int))
  input_source_options : List (Nat × List (String × String))
deriving DecidableEq, Repr

/-- `data["controls"][ctrl][mid] = v`, with the `setdefault(ctrl, {})`
behaviour of the entity write paths (the poll path always finds `ctrl`
present because `controls` is seeded with every member of `CONTROLS`). -/
def set2 (cs : List (String × List (Nat × Int))) (ctrl : String) (mid : Nat)
    (v : Int) : List (String × List (Nat × Int)) :=
  setA cs ctrl (setA ((lookupA cs ctrl).getD []) mid v)

/-- `data.get("controls", {}).get(ctrl, {}).get(mid)`. -/
def lookup2 (cs : List (String × List (Nat × Int))) (ctrl : String)
    (mid : Nat) : Option Int :=
  lookupA ((lookupA cs ctrl).getD []) mid

/-- One transport operation or lock event, as issued by the poll cycle
(`_async_update_data`) or the write worker (`_write_worker`). -/
inductive Event where
  | acquire : Event
  | release : Event
  | listMons : Event
  | fetchOpts : Nat → Event
  | read : Nat → String → Event
  | write : Nat → String → Int → Event
  | settle : Event
deriving DecidableEq, Repr

/-- The HTTP control surface (the HDMI Assistant Node), as a pure oracle:
one poll cycle / worker run consults it with fixed outcomes.  Errors carry
their message string. -/
structure Oracle where
  listMonitors : Except String (List Monitor)
  fetchOptions : Nat → Except String (List (String × String))
  readCtrl : Nat → String → Except String (Option Int)
  writeCtrl : Nat → String → Int → Except String Unit

/-- The body of the inner `for ctrl in self.CONTROLS` loop of
`_async_update_data`: `GET /monitors/{mid}/{ctrl}`; on HTTP success with a
non-null value overwrite the entry, on null or on exception keep the data
unchanged. -/
def readOneCtrl (o : Oracle) (mid : Nat) (ctrl : String) (d : CoordData) :
    CoordData :=
  match o.readCtrl mid ctrl with
  | .ok (some v) => { d with controls := set2 d.controls ctrl mid v }
  | .ok none => d
  | .error _ => d

/-- The `GET /monitors/{mid}/input_source_options` block of
`_async_update_data`: on success overwrite the per-monitor option table,
on exception keep the previous one. -/
def fetchMonOptions (o : Oracle) (mid : Nat) (d : CoordData) : CoordData :=
  match o.fetchOptions mid with
  | .ok opts =>
      { d with input_source_options := setA d.input_source_options mid opts }
  | .error _ => d

/-- The whole per-monitor body of `_async_update_data`: fetch the option
table, then read each control in `CONTROLS`. -/
def processMonitor (o : Oracle) (d : CoordData) (mid : Nat) : CoordData :=
  CONTROLS.foldl (fun d' ctrl => readOneCtrl o mid ctrl d') (fetchMonOptions o mid d)

/-- Transport operations issued for one monitor in a poll cycle; the
option fetch and every control read are attempted whatever their outcome. -/
def monitorEvents (mid : Nat) : List Event :=
  Event.fetchOpts mid :: CONTROLS.map (Event.read mid)

/-- `{ctrl: {} for ctrl in self.CONTROLS}`: the seed of `data["controls"]`
on the very first poll cycle. -/
def initControls : List (String × List (Nat × Int)) :=
  CONTROLS.map (fun c => (c, []))

/-- `_async_update_data`, with its transport/lock event trace.  The lock
is taken once (`async with self._write_lock`) around the monitor-list
fetch and the whole per-monitor loop; a failing `GET /monitors` escapes
the `async with` (releasing the lock) and yields the error, leaving the
previous data to the caller. -/
def updateData (o : Oracle) (old : Option CoordData) :
    Except String CoordData × List Event :=
  match o.listMonitors with
  | .error e => (.error e, [Event.acquire, Event.listMons, Event.release])
  | .ok mons =>
      let d0 : CoordData :=
        { monitors := mons
          controls := match old with
            | some d => d.controls
            | none => initControls
          input_source_options := match old with
            | some d => d.input_source_options
            | none => [] }
      (.ok (mons.foldl (fun d mon => processMonitor o d mon.id) d0),
        [Event.acquire, Event.listMons]
          ++ (mons.map (fun m => monitorEvents m.id)).flatten ++ [Event.release])

/-- The coordinator's observable status: cached data (kept by the
`DataUpdateCoordinator` base class across a failed refresh),
`last_update_success` and `self.last_exception`. -/
structure CoordState where
  data : Option CoordData
  last_update_success : Bool
  last_exception : Option String
deriving DecidableEq, Repr

/-- One scheduled refresh: run `_async_update_data`; on success install the
new data and clear the error; on `UpdateFailed` keep the old data, record
the exception and mark the update unsuccessful (the base class semantics
the integration relies on — scheduling always continues afterwards). -/
def coordStep (o : Oracle) (s : CoordState) : CoordState :=
  match (updateData o s.data).1 with
  | .ok d => { data := some d, last_update_success := true, last_exception := none }
  | .error e =>
      { s with last_update_success := false, last_exception := some e }

/-- `AssistantConnectionSensor.native_value`. -/
def connection_native_value (s : CoordState) : String :=
  if s.last_update_success then "connected"
  else "error: " ++ s.last_exception.getD "unknown"

/-- The write queue (`self._write_queue`): a FIFO of
`(mon_id, control, value)` tuples. -/
abbrev WriteQueue := List (Nat × String × Int)

/-- `enqueue_write`: `self._write_queue.put_nowait((mon_id, control, value))`. -/
def enqueue_write (q : WriteQueue) (mid : Nat) (ctrl : String) (v : Int) :
    WriteQueue :=
  q ++ [(mid, ctrl, v)]

/-- Coordinator data plus the write queue: the state an entity method
touches (it mutates `coordinator.data` and enqueues on the coordinator). -/
structure EntityState where
  data : CoordData
  queue : WriteQueue
deriving DecidableEq, Repr

/-- `AssistantNumber.native_value` (also the raw read of
`AssistantInputSelect.current_option` and `InputSourceSensor`):
`coordinator.data.get("controls", {}).get(ctrl, {}).get(mid)`. -/
def number_native_value (d : CoordData) (ctrl : String) (mid : Nat) :
    Option Int :=
  lookup2 d.controls ctrl mid

/-- `AssistantNumber.async_set_native_value`: enqueue the write, then
optimistically set `coordinator.data["controls"][ctrl][mid]`.  Both steps
run without an intervening await, so no other task observes the state in
between; the background refresh and event firing do not touch this state. -/
def async_set_native_value (s : EntityState) (mid : Nat) (ctrl : String)
    (value : Int) : EntityState :=
  { data := { s.data with controls := set2 s.data.controls ctrl mid value }
    queue := enqueue_write s.queue mid ctrl value }

/-- The value of one hex digit, as `int(c, 16)` sees it (digits and
letters; other characters are outside the option-table key format). -/
def hexDigitVal (c : Char) : Nat :=
  if '0' ≤ c ∧ c ≤ '9' then c.toNat - 48
  else if 'a' ≤ c ∧ c ≤ 'f' then c.toNat - 87
  else if 'A' ≤ c ∧ c ≤ 'F' then c.toNat - 55
  else 0

/-- `int(hex_key, 16)` on the well-formed hex keys of an option table. -/
def hexToNat (s : String) : Nat :=
  s.foldl (fun acc c => 16 * acc + hexDigitVal c) 0

/-- `rev = {v: k for k, v in opts.items()}; rev.get(option)` — a reversed
dictionary, so for a duplicated label the last pair wins. -/
def revLookup (opts : List (String × String)) (label : String) :
    Option String :=
  (opts.reverse.find? (fun p => p.2 = label)).map (fun p => p.1)

/-- `AssistantInputSelect.async_select_option`: resolve the label through
the reversed option table; on an unknown label log and return with nothing
changed; otherwise enqueue the write and optimistically update
`coordinator.data["controls"]["input_source"][mid]`. -/
def async_select_option (s : EntityState) (mid : Nat) (option : String) :
    EntityState :=
  let opts := (lookupA s.data.input_source_options mid).getD []
  match revLookup opts option with
  | none => s
  | some hexKey =>
      let value : Int := hexToNat hexKey
      { data := { s.data with
          controls := set2 s.data.controls "input_source" mid value }
        queue := enqueue_write s.queue mid "input_source" value }

/-- The events of one `_write_worker` iteration for one dequeued request:
take the lock, POST the write, on success sleep the 50 ms settle delay,
and (in either case, via the `async with` exit) release the lock. -/
def writeReqEvents (o : Oracle) (r : Nat × String × Int) : List Event :=
  match o.writeCtrl r.1 r.2.1 r.2.2 with
  | .ok _ =>
      [Event.acquire, Event.write r.1 r.2.1 r.2.2, Event.settle, Event.release]
  | .error _ => [Event.acquire, Event.write r.1 r.2.1 r.2.2, Event.release]

/-- The `_write_worker` loop draining a queue: requests are taken from the
front, one at a time, each producing its own lock-bracketed transport
write; a failed write is logged and dropped (no retry, no data change). -/
def writeWorkerTrace (o : Oracle) : WriteQueue → List Event
  | [] => []
  | r :: rest => writeReqEvents o r ++ writeWorkerTrace o rest

/-- The transport writes actually applied, extracted from a trace in
order. -/
def appliedWrites (tr : List Event) : WriteQueue :=
  tr.filterMap (fun e =>
    match e with
    | .write m c v => some (m, c, v)
    | _ => none)

/-- The two background tasks sharing `self._write_lock`. -/
inductive Task where
  | poller : Task
  | writer : Task
deriving DecidableEq, Repr

/-- Where the poll task is: idle between refreshes, or inside the
`async with self._write_lock` block with some number of transport calls
still to make this cycle. -/
inductive PollPhase where
  | pidle : PollPhase
  | pbusy : Nat → PollPhase
deriving DecidableEq, Repr

/-- Where the write worker is with the request it dequeued: idle on
`queue.get()`, holding a request but not yet the lock, inside the lock
POSTing, sleeping the settle delay, or about to leave the `async with`. -/
inductive WritePhase where
  | widle : WritePhase
  | wpending : Nat × String × Int → WritePhase
  | wwriting : Nat × String × Int → WritePhase
  | wsettling : Nat × String × Int → WritePhase
  | wdone : WritePhase
deriving DecidableEq, Repr

/-- The concurrent state of the coordinator's two background tasks: the
single `asyncio.Lock`, each task's control point, and the write queue. -/
structure Sys where
  lockOwner : Option Task
  poll : PollPhase
  write : WritePhase
  queue : WriteQueue
deriving DecidableEq, Repr

/-- Step labels: internal, or a transport operation by the named task. -/
inductive Label where
  | tau : Label
  | transport : Task → Label
deriving DecidableEq, Repr

/-- Interleaving semantics of `_async_update_data` and `_write_worker`
as the event loop schedules them.  The lock can be acquired only when
free; every transport call of the poller happens inside its
`async with self._write_lock` block (`pbusy`), every transport write of
the worker inside its own (`wwriting`), and the worker releases the lock
only after the settle delay (or the write failure) — `wrelease` is enabled
only from `wdone`. -/
inductive Step : Sys → Label → Sys → Prop where
  | pacquire (s : Sys) (k : Nat) :
      s.lockOwner = none → s.poll = .pidle →
      Step s .tau { s with lockOwner := some .poller, poll := .pbusy k }
  | pread (s : Sys) (k : Nat) :
      s.poll = .pbusy (k + 1) →
      Step s (.transport .poller) { s with poll := .pbusy k }
  | prelease (s : Sys) :
      s.poll = .pbusy 0 →
      Step s .tau { s with poll := .pidle, lockOwner := none }
  | wdequeue (s : Sys) (r : Nat × String × Int) (rest : WriteQueue) :
      s.write = .widle → s.queue = r :: rest →
      Step s .tau { s with write := .wpending r, queue := rest }
  | wacquire (s : Sys) (r : Nat × String × Int) :
      s.lockOwner = none → s.write = .wpending r →
      Step s .tau { s with lockOwner := some .writer, write := .wwriting r }
  | wpost (s : Sys) (r : Nat × String × Int) :
      s.write = .wwriting r →
      Step s (.transport .writer) { s with write := .wsettling r }
  | wfail (s : Sys) (r : Nat × String × Int) :
      s.write = .wwriting r →
      Step s (.transport .writer) { s with write := .wdone }
  | wsettle (s : Sys) (r : Nat × String × Int) :
      s.write = .wsettling r →
      Step s .tau { s with write := .wdone }
  | wrelease (s : Sys) :
      s.write = .wdone →
      Step s .tau { s with write := .widle, lockOwner := none }
  | enqueue (s : Sys) (r : Nat × String × Int) :
      Step s .tau { s with queue := s.queue ++ [r] }

/-- The coordinator starts with the lock free, both tasks idle and the
queue empty. -/
def Sys.start : Sys :=
  { lockOwner := none, poll := .pidle, write := .widle, queue := [] }

/-- States the two tasks can actually drive the system into. -/
inductive Reachable : Sys → Prop where
  | start : Reachable Sys.start
  | step {s : Sys} {l : Label} {s' : Sys} :
      Reachable s → Step s l s' → Reachable s'

/-- The poller is inside its lock-bracketed read sequence. -/
def pollerInCritical (s : Sys) : Prop := s.poll ≠ .pidle

/-- The worker is inside its lock-bracketed write-settle sequence. -/
def writerInCritical (s : Sys) : Prop :=
  s.write ≠ .widle ∧ ∀ r, s.write ≠ .wpending r

instance (s : Sys) : Decidable (pollerInCritical s) := by
  unfold pollerInCritical
  infer_instance

instance (s : Sys) : Decidable (writerInCritical s) := by
  unfold writerInCritical
  cases h : s.write <;> simp [h] <;> infer_instance

/-- The inductive lock invariant: a task in its critical section owns the
lock. -/
def LockInv (s : Sys) : Prop :=
  (pollerInCritical s → s.lockOwner = some .poller) ∧
    (writerInCritical s → s.lockOwner = some .writer)

/-- The data a successful refresh installs, to name concrete cycle results
(the fallback branch is never hit where this is used). -/
def cycleData (o : Oracle) (old : Option CoordData) : CoordData :=
  match (updateData o old).1 with
  | .ok d => d
  | .error _ =>
      { monitors := [], controls := initControls, input_source_options := [] }

/-- Example monitor, as in the spec's concrete scenario. -/
def monEx : Monitor := { id := 0, model := "DELL U2720Q" }

/-- Option table with HDMI1 only. -/
def optsA : List (String × String) := [("0f", "HDMI1")]

/-- Option table with HDMI1 and DisplayPort. -/
def optsB : List (String × String) :=
  [("0f", "HDMI1"), ("11", "DisplayPort")]

/-- Cached data after some earlier activity: brightness 60 (optimistic),
contrast 50, input source 0x0f, options `optsA`. -/
def dEx : CoordData :=
  { monitors := [monEx]
    controls :=
      [("brightness", [(0, 60)]), ("contrast", [(0, 50)]),
        ("input_source", [(0, 15)])]
    input_source_options := [(0, optsA)] }

/-- The coordinator before its first refresh. -/
def cInit : CoordState :=
  { data := none, last_update_success := false, last_exception := none }

/-- A coordinator whose previous refresh succeeded with `dEx`. -/
def sEx : CoordState :=
  { data := some dEx, last_update_success := true, last_exception := none }

/-- A fully healthy node: one monitor, options `optsA`, every control
reads 40, writes succeed. -/
def oPollA : Oracle :=
  { listMonitors := .ok [monEx]
    fetchOptions := fun _ => .ok optsA
    readCtrl := fun _ _ => .ok (some 40)
    writeCtrl := fun _ _ _ => .ok () }

/-- Same node a cycle later, now advertising `optsB`. -/
def oPollB : Oracle :=
  { listMonitors := .ok [monEx]
    fetchOptions := fun _ => .ok optsB
    readCtrl := fun _ _ => .ok (some 40)
    writeCtrl := fun _ _ _ => .ok () }

/-- A node whose contrast endpoint errors; everything else reads 40. -/
def oC3 : Oracle :=
  { listMonitors := .ok [monEx]
    fetchOptions := fun _ => .ok optsA
    readCtrl := fun _ ctrl =>
      if ctrl = "contrast" then .error "unsupported" else .ok (some 40)
    writeCtrl := fun _ _ _ => .ok () }

/-- A node that is down: the monitor listing itself fails. -/
def oC6 : Oracle :=
  { listMonitors := .error "connection refused"
    fetchOptions := fun _ => .error "connection refused"
    readCtrl := fun _ _ => .error "connection refused"
    writeCtrl := fun _ _ _ => .error "connection refused" }

/-- A node whose input-source endpoint answers 200 with a null body value;
everything else reads 40. -/
def oC10 : Oracle :=
  { listMonitors := .ok [monEx]
    fetchOptions := fun _ => .ok optsA
    readCtrl := fun _ ctrl =>
      if ctrl = "input_source" then .ok none else .ok (some 40)
    writeCtrl := fun _ _ _ => .ok () }

/-- Acquire events in a trace. -/
def countAcquires (tr : List Event) : Nat :=
  (tr.filter fun e =>
    match e with
    | .acquire => true
    | _ => false).length

/-- Individual control-read events in a trace. -/
def countReads (tr : List Event) : Nat :=
  (tr.filter fun e =>
    match e with
    | .read _ _ => true
    | _ => false).length

/-- The state just after the poller acquired the lock for a three-read
cycle. -/
def pollLockedState : Sys :=
  { lockOwner := some .poller, poll := .pbusy 3, write := .widle, queue := [] }

/-- An entity's view over `dEx` with an empty write queue. -/
def exEntity : EntityState := { data := dEx, queue := [] }

/-- A node whose option-table endpoint times out while everything else
works. -/
def oC9F : Oracle :=
  { listMonitors := .ok [monEx]
    fetchOptions := fun _ => .error "timeout"
    readCtrl := fun _ _ => .ok (some 40)
    writeCtrl := fun _ _ _ => .ok () }

theorem lookupA_setA_self {α β : Type} [DecidableEq α]
    (m : List (α × β)) (k : α) (v : β) : lookupA (setA m k v) k = some v := by
  induction m with
  | nil => simp [setA, lookupA]
  | cons hd tl ih =>
      obtain ⟨k0, v0⟩ := hd
      by_cases h : k = k0
      · simp [setA, h, lookupA]
      · simp [setA, h, lookupA, ih]

theorem lookupA_setA_ne {α β : Type} [DecidableEq α]
    (m : List (α × β)) (k k' : α) (v : β) (hne : k' ≠ k) :
    lookupA (setA m k v) k' = lookupA m k' := by
  induction m with
  | nil => simp [setA, lookupA, hne]
  | cons hd tl ih =>
      obtain ⟨k0, v0⟩ := hd
      by_cases h : k = k0
      · subst h
        simp [setA, lookupA, hne]
      · by_cases h' : k' = k0
        · simp [setA, h, lookupA, h']
        · simp [setA, h, lookupA, h', ih]

theorem lookup2_set2_self (cs : List (String × List (Nat × Int)))
    (ctrl : String) (mid : Nat) (v : Int) :
    lookup2 (set2 cs ctrl mid v) ctrl mid = some v := by
  simp [lookup2, set2, lookupA_setA_self]

theorem lookup2_set2_ne (cs : List (String × List (Nat × Int)))
    (ctrl ctrl' : String) (mid mid' : Nat) (v : Int)
    (h : ¬ (ctrl' = ctrl ∧ mid' = mid)) :
    lookup2 (set2 cs ctrl mid v) ctrl' mid' = lookup2 cs ctrl' mid' := by
  by_cases hc : ctrl' = ctrl
  · subst hc
    have hm : mid' ≠ mid := fun he => h ⟨rfl, he⟩
    simp [lookup2, set2, lookupA_setA_self, lookupA_setA_ne _ _ _ _ hm]
  · simp [lookup2, set2, lookupA_setA_ne _ _ _ _ hc]

theorem lockInv_start : LockInv Sys.start := by
  constructor
  · intro h
    exact absurd rfl h
  · intro h
    exact absurd rfl h.1

theorem lockInv_step {s : Sys} {l : Label} {s' : Sys}
    (hinv : LockInv s) (hstep : Step s l s') : LockInv s' := by
  obtain ⟨hp, hw⟩ := hinv
  cases hstep with
  | pacquire k hfree hidle =>
      refine ⟨fun _ => rfl, fun hc => ?_⟩
      exact absurd (hw hc) (by simp [hfree])
  | pread k hb =>
      refine ⟨fun _ => hp (by simp [pollerInCritical, hb]), fun hc => ?_⟩
      exact hw hc
  | prelease hb =>
      refine ⟨fun hc => absurd rfl hc, fun hc => ?_⟩
      have hwo' := hw hc
      have hpo := hp (by simp [pollerInCritical, hb])
      rw [hwo'] at hpo
      exact absurd (Option.some.inj hpo) (by simp)
  | wdequeue r rest hidle hq =>
      refine ⟨fun hc => hp hc, fun hc => ?_⟩
      exact absurd rfl (hc.2 r)
  | wacquire r hfree hpend =>
      refine ⟨fun hc => ?_, fun _ => rfl⟩
      exact absurd (hp hc) (by simp [hfree])
  | wpost r hb =>
      exact ⟨fun hc => hp hc, fun _ => hw (by simp [writerInCritical, hb])⟩
  | wfail r hb =>
      exact ⟨fun hc => hp hc, fun _ => hw (by simp [writerInCritical, hb])⟩
  | wsettle r hb =>
      exact ⟨fun hc => hp hc, fun _ => hw (by simp [writerInCritical, hb])⟩
  | wrelease hb =>
      refine ⟨fun hc => ?_, fun hc => absurd rfl hc.1⟩
      have hpo' := hp hc
      have hwo := hw (by simp [writerInCritical, hb])
      rw [hpo'] at hwo
      exact absurd (Option.some.inj hwo) (by simp)
  | enqueue r =>
      exact ⟨fun hc => hp hc, fun hc => hw hc⟩

theorem lockInv_reachable {s : Sys} (h : Reachable s) : LockInv s := by
  induction h with
  | start => exact lockInv_start
  | step _ hstep ih => exact lockInv_step ih hstep

theorem foldl_preserve {α β : Type} (f : β → α → β) (P : β → Prop)
    (hstep : ∀ b a, P b → P (f b a)) :
    ∀ (l : List α) (b : β), P b → P (l.foldl f b) := by
  intro l
  induction l with
  | nil => intro b hb; simpa using hb
  | cons a t ih => intro b hb; exact ih (f b a) (hstep b a hb)

theorem readOneCtrl_options (o : Oracle) (mid : Nat) (ctrl : String)
    (d : CoordData) :
    (readOneCtrl o mid ctrl d).input_source_options = d.input_source_options := by
  cases h : o.readCtrl mid ctrl with
  | ok v => cases v <;> simp [readOneCtrl, h]
  | error e => simp [readOneCtrl, h]

theorem fetchMonOptions_controls (o : Oracle) (mid : Nat) (d : CoordData) :
    (fetchMonOptions o mid d).controls = d.controls := by
  cases h : o.fetchOptions mid <;> simp [fetchMonOptions, h]

/-- A read whose oracle outcome is not a non-null success writes nothing:
the cached value of the failing pair survives any single step of the
per-monitor loop. -/
theorem readOneCtrl_lookup2_noWrite (o : Oracle) (mid0 : Nat) (ctrl0 : String)
    (hno : ∀ v, o.readCtrl mid0 ctrl0 ≠ .ok (some v))
    (mid : Nat) (ctrl : String) (d : CoordData) :
    lookup2 (readOneCtrl o mid ctrl d).controls ctrl0 mid0
      = lookup2 d.controls ctrl0 mid0 := by
  cases h : o.readCtrl mid ctrl with
  | ok v =>
      cases v with
      | none => simp [readOneCtrl, h]
      | some w =>
          by_cases hpair : ctrl0 = ctrl ∧ mid0 = mid
          · obtain ⟨hc, hm⟩ := hpair
            subst hc
            subst hm
            exact absurd h (hno w)
          · simp [readOneCtrl, h, lookup2_set2_ne _ _ _ _ _ _ hpair]
  | error e => simp [readOneCtrl, h]

theorem processMonitor_lookup2_noWrite (o : Oracle) (mid0 : Nat)
    (ctrl0 : String) (hno : ∀ v, o.readCtrl mid0 ctrl0 ≠ .ok (some v))
    (d : CoordData) (mid : Nat) :
    lookup2 (processMonitor o d mid).controls ctrl0 mid0
      = lookup2 d.controls ctrl0 mid0 := by
  unfold processMonitor
  have hbase :
      lookup2 (fetchMonOptions o mid d).controls ctrl0 mid0
        = lookup2 d.controls ctrl0 mid0 := by
    rw [fetchMonOptions_controls]
  refine foldl_preserve _
    (fun d' => lookup2 d'.controls ctrl0 mid0 = lookup2 d.controls ctrl0 mid0)
    ?_ CONTROLS (fetchMonOptions o mid d) hbase
  intro d' ctrl hd'
  rw [readOneCtrl_lookup2_noWrite o mid0 ctrl0 hno mid ctrl d', hd']

/-- Cycle-level form: if the oracle never yields a non-null success for
`(mid0, ctrl0)`, a successful poll cycle leaves that pair's cached value
exactly as it was. -/
theorem updateData_lookup2_noWrite (o : Oracle) (old : CoordData)
    (mons : List Monitor) (mid0 : Nat) (ctrl0 : String) (d' : CoordData)
    (hmons : o.listMonitors = .ok mons)
    (hno : ∀ v, o.readCtrl mid0 ctrl0 ≠ .ok (some v))
    (hres : (updateData o (some old)).1 = .ok d') :
    lookup2 d'.controls ctrl0 mid0 = lookup2 old.controls ctrl0 mid0 := by
  have hfold : ∀ d0 : CoordData,
      lookup2 (mons.foldl (fun d mon => processMonitor o d mon.id) d0).controls
          ctrl0 mid0
        = lookup2 d0.controls ctrl0 mid0 := by
    intro d0
    exact foldl_preserve (fun d mon => processMonitor o d mon.id)
      (fun d'' => lookup2 d''.controls ctrl0 mid0 = lookup2 d0.controls ctrl0 mid0)
      (fun d'' mon hd'' =>
        Eq.trans (processMonitor_lookup2_noWrite o mid0 ctrl0 hno d'' mon.id) hd'')
      mons d0 rfl
  simp only [updateData, hmons] at hres
  have hd' := Except.ok.inj hres
  rw [← hd']
  exact hfold _

/-- A successful non-null read of `(mid, ctrl)` establishes the cached
value `v2` after its own step of the per-monitor loop. -/
theorem readOneCtrl_lookup2_write (o : Oracle) (mid : Nat) (ctrl : String)
    (v2 : Int) (hread : o.readCtrl mid ctrl = .ok (some v2)) (d : CoordData) :
    lookup2 (readOneCtrl o mid ctrl d).controls ctrl mid = some v2 := by
  simp [readOneCtrl, hread, lookup2_set2_self]

/-- Once `(mid, ctrl)` caches `v2` and the oracle reads `v2` for that pair,
no later step of the cycle can change it: any overwrite of the same pair
re-reads the same `v2`. -/
theorem readOneCtrl_lookup2_stable (o : Oracle) (mid : Nat) (ctrl : String)
    (v2 : Int) (hread : o.readCtrl mid ctrl = .ok (some v2))
    (mid' : Nat) (ctrl' : String) (d : CoordData)
    (hd : lookup2 d.controls ctrl mid = some v2) :
    lookup2 (readOneCtrl o mid' ctrl' d).controls ctrl mid = some v2 := by
  cases h : o.readCtrl mid' ctrl' with
  | ok v =>
      cases v with
      | none => simpa [readOneCtrl, h] using hd
      | some w =>
          by_cases hpair : ctrl = ctrl' ∧ mid = mid'
          · obtain ⟨hc, hm⟩ := hpair
            subst hc
            subst hm
            rw [hread] at h
            have hw := Option.some.inj (Except.ok.inj h)
            subst hw
            simp [readOneCtrl, hread, lookup2_set2_self]
          · simpa [readOneCtrl, h, lookup2_set2_ne _ _ _ _ _ _ hpair] using hd
  | error e => simpa [readOneCtrl, h] using hd

theorem processMonitor_lookup2_stable (o : Oracle) (mid : Nat) (ctrl : String)
    (v2 : Int) (hread : o.readCtrl mid ctrl = .ok (some v2))
    (d : CoordData) (mid' : Nat)
    (hd : lookup2 d.controls ctrl mid = some v2) :
    lookup2 (processMonitor o d mid').controls ctrl mid = some v2 := by
  unfold processMonitor
  refine foldl_preserve (fun d' ctrl' => readOneCtrl o mid' ctrl' d')
    (fun d' => lookup2 d'.controls ctrl mid = some v2)
    ?_ CONTROLS (fetchMonOptions o mid' d) ?_
  · intro d' ctrl' hd'
    exact readOneCtrl_lookup2_stable o mid ctrl v2 hread mid' ctrl' d' hd'
  · simpa [fetchMonOptions_controls] using hd

theorem readFold_lookup2_establish (o : Oracle) (mid : Nat) (ctrl : String)
    (v2 : Int) (hread : o.readCtrl mid ctrl = .ok (some v2)) :
    ∀ (cs : List String) (d1 : CoordData), ctrl ∈ cs →
      lookup2 ((cs.foldl (fun d' c => readOneCtrl o mid c d') d1)).controls
          ctrl mid
        = some v2 := by
  intro cs
  induction cs with
  | nil => intro d1 h; cases h
  | cons c cs' ih =>
      intro d1 hmem
      rcases List.mem_cons.mp hmem with hc | hc
      · subst hc
        simp only [List.foldl_cons]
        refine foldl_preserve (fun d' c' => readOneCtrl o mid c' d')
          (fun d'' => lookup2 d''.controls ctrl mid = some v2)
          ?_ cs' (readOneCtrl o mid ctrl d1) ?_
        · intro d'' c' hd''
          exact readOneCtrl_lookup2_stable o mid ctrl v2 hread mid c' d'' hd''
        · exact readOneCtrl_lookup2_write o mid ctrl v2 hread d1
      · simp only [List.foldl_cons]
        exact ih _ hc

theorem processMonitor_lookup2_establish (o : Oracle) (mid : Nat)
    (ctrl : String) (v2 : Int) (hctrl : ctrl ∈ CONTROLS)
    (hread : o.readCtrl mid ctrl = .ok (some v2)) (d : CoordData) :
    lookup2 (processMonitor o d mid).controls ctrl mid = some v2 := by
  unfold processMonitor
  exact readFold_lookup2_establish o mid ctrl v2 hread CONTROLS
    (fetchMonOptions o mid d) hctrl

/-- A property established by processing monitor `mid` and stable under
processing any monitor holds after the whole per-monitor loop, as soon as
`mid` is among the listed monitors. -/
theorem pollFold_establish (o : Oracle) (mid : Nat) (P : CoordData → Prop)
    (hstable : ∀ (d : CoordData) (mid' : Nat), P d → P (processMonitor o d mid'))
    (hestab : ∀ d : CoordData, P (processMonitor o d mid)) :
    ∀ (mons : List Monitor) (d0 : CoordData), mid ∈ mons.map Monitor.id →
      P (mons.foldl (fun d mon => processMonitor o d mon.id) d0) := by
  intro mons
  induction mons with
  | nil => intro d0 h; simp at h
  | cons m ms ih =>
      intro d0 hmem
      rcases List.mem_map.mp hmem with ⟨a, ha, haid⟩
      rcases List.mem_cons.mp ha with rfl | hams
      · simp only [List.foldl_cons]
        refine foldl_preserve (fun d mon => processMonitor o d mon.id) P
          (fun d mon hd => hstable d mon.id hd) ms _ ?_
        rw [haid]
        exact hestab d0
      · simp only [List.foldl_cons]
        exact ih _ (List.mem_map.mpr ⟨a, hams, haid⟩)

/-- Lift `pollFold_establish` to a successful `_async_update_data` run. -/
theorem updateData_establish (o : Oracle) (old : Option CoordData)
    (mons : List Monitor) (mid : Nat) (d' : CoordData) (P : CoordData → Prop)
    (hmons : o.listMonitors = .ok mons)
    (hres : (updateData o old).1 = .ok d')
    (hstable : ∀ (d : CoordData) (mid' : Nat), P d → P (processMonitor o d mid'))
    (hestab : ∀ d : CoordData, P (processMonitor o d mid))
    (hmem : mid ∈ mons.map Monitor.id) : P d' := by
  simp only [updateData, hmons] at hres
  have hd' := Except.ok.inj hres
  rw [← hd']
  exact pollFold_establish o mid P hstable hestab mons _ hmem

theorem readFold_options (o : Oracle) (mid' : Nat) (cs : List String)
    (d1 : CoordData) :
    ((cs.foldl (fun d' c => readOneCtrl o mid' c d') d1)).input_source_options
      = d1.input_source_options :=
  foldl_preserve (fun d' c => readOneCtrl o mid' c d')
    (fun d => d.input_source_options = d1.input_source_options)
    (fun d c hd => Eq.trans (readOneCtrl_options o mid' c d) hd) cs d1 rfl

theorem processMonitor_options (o : Oracle) (d : CoordData) (mid' : Nat) :
    (processMonitor o d mid').input_source_options
      = (fetchMonOptions o mid' d).input_source_options :=
  readFold_options o mid' CONTROLS (fetchMonOptions o mid' d)

/-- A successful option fetch for `mid` installs exactly the fetched table. -/
theorem processMonitor_optionsLookup_establish (o : Oracle) (mid : Nat)
    (opts : List (String × String)) (hfetch : o.fetchOptions mid = .ok opts)
    (d : CoordData) :
    lookupA (processMonitor o d mid).input_source_options mid = some opts := by
  rw [processMonitor_options]
  simp [fetchMonOptions, hfetch, lookupA_setA_self]

/-- Once the table for `mid` is the fetched one, processing any monitor
keeps it (a duplicate of `mid` re-fetches the same table). -/
theorem processMonitor_optionsLookup_stable (o : Oracle) (mid : Nat)
    (opts : List (String × String)) (hfetch : o.fetchOptions mid = .ok opts)
    (d : CoordData) (mid' : Nat)
    (hd : lookupA d.input_source_options mid = some opts) :
    lookupA (processMonitor o d mid').input_source_options mid = some opts := by
  rw [processMonitor_options]
  cases h : o.fetchOptions mid' with
  | ok opts' =>
      by_cases hm : mid = mid'
      · subst hm
        rw [hfetch] at h
        have ho := Except.ok.inj h
        subst ho
        simp [fetchMonOptions, hfetch, lookupA_setA_self]
      · simpa [fetchMonOptions, h, lookupA_setA_ne _ _ _ _ hm] using hd
  | error e => simpa [fetchMonOptions, h] using hd

/-- If the fetch for `mid` fails, no step of the cycle writes `mid`'s
table. -/
theorem processMonitor_optionsLookup_noWrite (o : Oracle) (mid : Nat)
    (e : String) (hfetch : o.fetchOptions mid = .error e) (d : CoordData)
    (mid' : Nat) :
    lookupA (processMonitor o d mid').input_source_options mid
      = lookupA d.input_source_options mid := by
  rw [processMonitor_options]
  cases h : o.fetchOptions mid' with
  | ok opts' =>
      have hm : mid ≠ mid' := by
        intro hmm
        rw [hmm, h] at hfetch
        cases hfetch
      simp [fetchMonOptions, h, lookupA_setA_ne _ _ _ _ hm]
  | error e' => simp [fetchMonOptions, h]

theorem updateData_optionsLookup_noWrite (o : Oracle) (old : CoordData)
    (mons : List Monitor) (mid : Nat) (e : String) (d' : CoordData)
    (hmons : o.listMonitors = .ok mons)
    (hfetch : o.fetchOptions mid = .error e)
    (hres : (updateData o (some old)).1 = .ok d') :
    lookupA d'.input_source_options mid = lookupA old.input_source_options mid := by
  simp only [updateData, hmons] at hres
  have hd' := Except.ok.inj hres
  rw [← hd']
  exact foldl_preserve (fun d mon => processMonitor o d mon.id)
    (fun d => lookupA d.input_source_options mid
      = lookupA old.input_source_options mid)
    (fun d mon hd =>
      Eq.trans (processMonitor_optionsLookup_noWrite o mid e hfetch d mon.id) hd)
    mons
    { monitors := mons, controls := old.controls
      input_source_options := old.input_source_options } rfl

theorem monitorEvents_no_acquire (mid : Nat) :
    Event.acquire ∉ monitorEvents mid ∧ Event.release ∉ monitorEvents mid := by
  constructor <;> simp [monitorEvents, CONTROLS]

theorem monflatten_no_lock (mons : List Monitor) :
    Event.acquire ∉ (mons.map (fun m => monitorEvents m.id)).flatten ∧
      Event.release ∉ (mons.map (fun m => monitorEvents m.id)).flatten := by
  constructor <;>
    · intro h
      rcases List.mem_flatten.mp h with ⟨l, hl, hin⟩
      rcases List.mem_map.mp hl with ⟨mm, _, hleq⟩
      rw [← hleq] at hin
      simp [monitorEvents, CONTROLS] at hin

/-- Every control of every listed monitor gets its read attempted in a
cycle whose monitor listing succeeded, whatever the reads return. -/
theorem updateData_read_attempted (o : Oracle) (old : Option CoordData)
    (mons : List Monitor) (hmons : o.listMonitors = .ok mons)
    (m : Monitor) (hm : m ∈ mons) (ctrl : String) (hctrl : ctrl ∈ CONTROLS) :
    Event.read m.id ctrl ∈ (updateData o old).2 := by
  have h1 : Event.read m.id ctrl ∈ monitorEvents m.id := by
    unfold monitorEvents
    exact List.mem_cons_of_mem _ (List.mem_map_of_mem (Event.read m.id) hctrl)
  have h2 : monitorEvents m.id ∈ mons.map (fun mm => monitorEvents mm.id) :=
    List.mem_map_of_mem _ hm
  have h3 : Event.read m.id ctrl
      ∈ (mons.map (fun mm => monitorEvents mm.id)).flatten :=
    List.mem_flatten.mpr ⟨_, h2, h1⟩
  simp only [updateData, hmons]
  simp [h3]

/-- C1: at most one in-flight transaction against the control surface at
any instant — in every reachable state the poller and the write worker are
never simultaneously inside their lock-protected sections, any task inside
one (the writer's section includes the post-write settle delay) owns the
single shared mutual-exclusion token, and every transport-labelled step is
taken by the task that owns the token. -/
theorem claim1_single_inflight (s : Sys) (h : Reachable s) :
    ¬ (pollerInCritical s ∧ writerInCritical s) ∧ LockInv s ∧
      ∀ (t : Task) (s' : Sys), Step s (Label.transport t) s' →
        s.lockOwner = some t := by
  have hinv := lockInv_reachable h
  refine ⟨?_, hinv, ?_⟩
  · rintro ⟨hp, hw⟩
    have h1 := hinv.1 hp
    have h2 := hinv.2 hw
    rw [h1] at h2
    simp at h2
  · intro t s' hstep
    cases hstep with
    | pread k hb => exact hinv.1 (by simp [pollerInCritical, hb])
    | wpost r hb => exact hinv.2 (by simp [writerInCritical, hb])
    | wfail r hb => exact hinv.2 (by simp [writerInCritical, hb])

/-- C1 witness: the mutual-exclusion theorem at the concrete reachable
state in which the poller has just taken the lock for a three-read cycle. -/
theorem claim1_witness :
    ¬ (pollerInCritical pollLockedState ∧ writerInCritical pollLockedState) ∧
      LockInv pollLockedState ∧
      ∀ (t : Task) (s' : Sys), Step pollLockedState (Label.transport t) s' →
        pollLockedState.lockOwner = some t :=
  claim1_single_inflight pollLockedState
    (Reachable.step Reachable.start (Step.pacquire Sys.start 3 rfl rfl))

/-- C2: a write request for `(mid, ctrl, v)` updates the cached value
immediately — before the write worker has dequeued anything, the request
sits at the tail of the queue and `native_value` already returns `v`; the
same holds on the select path for a label resolved through the option
table. -/
theorem claim2_optimistic_update (s : EntityState) (mid : Nat) (ctrl : String)
    (v : Int) (label hexKey : String) (opts : List (String × String))
    (hopts : lookupA s.data.input_source_options mid = some opts)
    (hlabel : revLookup opts label = some hexKey) :
    number_native_value (async_set_native_value s mid ctrl v).data ctrl mid
        = some v
  ∧ (async_set_native_value s mid ctrl v).queue = s.queue ++ [(mid, ctrl, v)]
  ∧ number_native_value (async_select_option s mid label).data
        "input_source" mid = some (hexToNat hexKey)
  ∧ (async_select_option s mid label).queue
        = s.queue ++ [(mid, "input_source", (hexToNat hexKey : Int))] := by
  refine ⟨?_, rfl, ?_, ?_⟩
  · simp [async_set_native_value, number_native_value, lookup2_set2_self]
  · simp [async_select_option, hopts, hlabel, number_native_value,
      lookup2_set2_self]
  · simp [async_select_option, hopts, hlabel, enqueue_write]

/-- C2 witness: writing brightness 60 and selecting HDMI1 on the example
state both land in the cache at once and at the tail of the queue. -/
theorem claim2_witness :
    number_native_value
        (async_set_native_value exEntity 0 "brightness" 60).data
        "brightness" 0 = some 60
  ∧ (async_set_native_value exEntity 0 "brightness" 60).queue
        = exEntity.queue ++ [(0, "brightness", 60)]
  ∧ number_native_value (async_select_option exEntity 0 "HDMI1").data
        "input_source" 0 = some (hexToNat "0f")
  ∧ (async_select_option exEntity 0 "HDMI1").queue
        = exEntity.queue ++ [(0, "input_source", (hexToNat "0f" : Int))] :=
  claim2_optimistic_update exEntity 0 "brightness" 60 "HDMI1" "0f" optsA
    rfl rfl

/-- C3: a poll cycle in which the read of `(mid0, ctrl0)` raises leaves
that pair's cached value exactly as before the cycle, the failing read
itself modifies nothing at all, and every read of every listed monitor and
control is still attempted in the same cycle. -/
theorem claim3_failed_read (o : Oracle) (old : CoordData)
    (mons : List Monitor) (mid0 : Nat) (ctrl0 : String) (e : String)
    (d' : CoordData) (hmons : o.listMonitors = .ok mons)
    (hfail : o.readCtrl mid0 ctrl0 = .error e)
    (hres : (updateData o (some old)).1 = .ok d') :
    lookup2 d'.controls ctrl0 mid0 = lookup2 old.controls ctrl0 mid0
  ∧ (∀ d : CoordData, readOneCtrl o mid0 ctrl0 d = d)
  ∧ ∀ m ∈ mons, ∀ ctrl ∈ CONTROLS,
      Event.read m.id ctrl ∈ (updateData o (some old)).2 := by
  have hno : ∀ v, o.readCtrl mid0 ctrl0 ≠ .ok (some v) := by
    intro v hv
    rw [hfail] at hv
    cases hv
  refine ⟨updateData_lookup2_noWrite o old mons mid0 ctrl0 d' hmons hno hres,
    ?_, ?_⟩
  · intro d
    simp [readOneCtrl, hfail]
  · intro m hm ctrl hctrl
    exact updateData_read_attempted o (some old) mons hmons m hm ctrl hctrl

/-- C3 witness: with the contrast endpoint erroring, the cached contrast
survives the cycle unchanged and all three reads are still attempted. -/
theorem claim3_witness :
    lookup2 (cycleData oC3 (some dEx)).controls "contrast" 0
        = lookup2 dEx.controls "contrast" 0
  ∧ (∀ d : CoordData, readOneCtrl oC3 0 "contrast" d = d)
  ∧ ∀ m ∈ [monEx], ∀ ctrl ∈ CONTROLS,
      Event.read m.id ctrl ∈ (updateData oC3 (some dEx)).2 :=
  claim3_failed_read oC3 dEx [monEx] 0 "contrast" "unsupported"
    (cycleData oC3 (some dEx)) rfl rfl rfl

/-- C4: the poll is authoritative over an optimistic guess — if the cache
holds an optimistic `v'` (left by a write whose transport call failed and
which therefore changed nothing) and the next cycle successfully reads a
different `v2` for that pair, the cached value becomes `v2`. -/
theorem claim4_poll_authoritative (o : Oracle) (old : CoordData)
    (mons : List Monitor) (mid : Nat) (ctrl : String) (v' v2 : Int)
    (d' : CoordData) (hmons : o.listMonitors = .ok mons)
    (hmem : mid ∈ mons.map Monitor.id) (hctrl : ctrl ∈ CONTROLS)
    (hopt : lookup2 old.controls ctrl mid = some v') (hne : v' ≠ v2)
    (hread : o.readCtrl mid ctrl = .ok (some v2))
    (hres : (updateData o (some old)).1 = .ok d') :
    lookup2 d'.controls ctrl mid = some v2 :=
  updateData_establish o (some old) mons mid d'
    (fun d => lookup2 d.controls ctrl mid = some v2) hmons hres
    (fun d mid' hd => processMonitor_lookup2_stable o mid ctrl v2 hread d mid' hd)
    (fun d => processMonitor_lookup2_establish o mid ctrl v2 hctrl hread d)
    hmem

/-- C4 witness: brightness optimistically 60 in the cache, 40 on the wire;
after the cycle the cache holds 40. -/
theorem claim4_witness :
    lookup2 (cycleData oPollA (some dEx)).controls "brightness" 0 = some 40 :=
  claim4_poll_authoritative oPollA dEx [monEx] 0 "brightness" 60 40
    (cycleData oPollA (some dEx)) rfl (by decide) (by decide) rfl (by decide)
    rfl rfl

/-- C5: write ordering is FIFO — draining any queue applies exactly its
requests to the transport, in submission order, each consumed once; in
particular two requests enqueued as `v1` then `v2` are applied in that
order after whatever was queued before them. -/
theorem claim5_write_fifo (o : Oracle) :
    (∀ qs : WriteQueue, appliedWrites (writeWorkerTrace o qs) = qs) ∧
      ∀ (q : WriteQueue) (mid : Nat) (ctrl : String) (v1 v2 : Int),
        appliedWrites (writeWorkerTrace o
            (enqueue_write (enqueue_write q mid ctrl v1) mid ctrl v2))
          = q ++ [(mid, ctrl, v1), (mid, ctrl, v2)] := by
  have hall : ∀ qs : WriteQueue, appliedWrites (writeWorkerTrace o qs) = qs := by
    intro qs
    induction qs with
    | nil => rfl
    | cons r rest ih =>
        obtain ⟨m, c, v⟩ := r
        cases h : o.writeCtrl m c v <;>
          · simp only [writeWorkerTrace, writeReqEvents, h, appliedWrites,
              List.filterMap_append]
            simpa [appliedWrites] using ih
  refine ⟨hall, ?_⟩
  intro q mid ctrl v1 v2
  rw [hall]
  simp [enqueue_write]

/-- C6: a failed monitor listing fails the whole cycle — the cached data
(values, monitor list and option tables alike) is preserved unmodified,
the failure is surfaced through `last_exception` and the connection
sensor, and the next refresh still runs and can succeed normally. -/
theorem claim6_discovery_failure (o o2 : Oracle) (s : CoordState) (e : String)
    (d2 : CoordData) (hfail : o.listMonitors = .error e)
    (hok2 : (updateData o2 (coordStep o s).data).1 = .ok d2) :
    (coordStep o s).data = s.data
  ∧ (coordStep o s).last_update_success = false
  ∧ (coordStep o s).last_exception = some e
  ∧ connection_native_value (coordStep o s) = "error: " ++ e
  ∧ coordStep o2 (coordStep o s)
      = { data := some d2, last_update_success := true,
          last_exception := none } := by
  have hstep : coordStep o s
      = { s with last_update_success := false, last_exception := some e } := by
    simp [coordStep, updateData, hfail]
  refine ⟨by rw [hstep], by rw [hstep], by rw [hstep], ?_, ?_⟩
  · rw [hstep]
    simp [connection_native_value]
  · have hgen : ∀ t : CoordState, (updateData o2 t.data).1 = .ok d2 →
        coordStep o2 t
          = { data := some d2
              last_update_success := true
              last_exception := none } := by
      intro t ht
      simp [coordStep, ht]
    exact hgen _ hok2

/-- C6 witness: after an unreachable node fails one cycle over `sEx`, the
data is untouched, the sensor reports the error, and the next healthy
cycle succeeds. -/
theorem claim6_witness :
    (coordStep oC6 sEx).data = sEx.data
  ∧ (coordStep oC6 sEx).last_update_success = false
  ∧ (coordStep oC6 sEx).last_exception = some "connection refused"
  ∧ connection_native_value (coordStep oC6 sEx)
      = "error: " ++ "connection refused"
  ∧ coordStep oPollA (coordStep oC6 sEx)
      = { data := some (cycleData oPollA (coordStep oC6 sEx).data)
          last_update_success := true, last_exception := none } :=
  claim6_discovery_failure oC6 oPollA sEx "connection refused"
    (cycleData oPollA (coordStep oC6 sEx).data) rfl rfl

/-- C7 counterexample: `async_set_native_value` performs no range check —
requesting brightness 150 (outside 0–100) on the example state both
enqueues the request and optimistically overwrites the cache, so the
claim's "no optimistic update occurs and no entry is enqueued" is false
for continuous controls. -/
theorem claim7_counterexample :
    ((100 : Int) < 150)
  ∧ (async_set_native_value exEntity 0 "brightness" 150).queue
      = [(0, "brightness", 150)]
  ∧ (async_set_native_value exEntity 0 "brightness" 150).queue
      ≠ exEntity.queue
  ∧ number_native_value
      (async_set_native_value exEntity 0 "brightness" 150).data
      "brightness" 0 = some 150
  ∧ number_native_value exEntity.data "brightness" 0 = some 60 := by
  refine ⟨by norm_num, rfl, by simp [async_set_native_value, exEntity,
    enqueue_write], rfl, rfl⟩

/-- C7 amended: only the enumerated path validates — an input-source
option absent from the device's option table is rejected synchronously
with the state (cache and queue) completely unchanged, while the number
path enqueues and optimistically caches any value without a range check
(range enforcement is left to the platform via the declared 0–100
attributes). -/
theorem claim7_amended_validation (s : EntityState) (mid : Nat)
    (label : String) (opts : List (String × String))
    (hopts : lookupA s.data.input_source_options mid = some opts)
    (hinvalid : revLookup opts label = none) :
    async_select_option s mid label = s
  ∧ ∀ (mid' : Nat) (ctrl : String) (v : Int),
      (async_set_native_value s mid' ctrl v).queue
          = s.queue ++ [(mid', ctrl, v)]
    ∧ number_native_value (async_set_native_value s mid' ctrl v).data
          ctrl mid' = some v := by
  refine ⟨?_, ?_⟩
  · simp [async_select_option, hopts, hinvalid]
  · intro mid' ctrl v
    exact ⟨rfl,
      by simp [async_set_native_value, number_native_value, lookup2_set2_self]⟩

/-- C7 witness: selecting the label DisplayPort, absent from `optsA`,
changes nothing, while any number write goes straight through. -/
theorem claim7_witness :
    async_select_option exEntity 0 "DisplayPort" = exEntity
  ∧ ∀ (mid' : Nat) (ctrl : String) (v : Int),
      (async_set_native_value exEntity mid' ctrl v).queue
          = exEntity.queue ++ [(mid', ctrl, v)]
    ∧ number_native_value (async_set_native_value exEntity mid' ctrl v).data
          ctrl mid' = some v :=
  claim7_amended_validation exEntity 0 "DisplayPort" optsA rfl rfl

/-- C8 counterexample: in the concrete cycle over one monitor the lock is
acquired once while three reads are performed, so the claim that the token
is acquired and released once per individual read (which would require as
many acquisitions as reads) is false. -/
theorem claim8_counterexample :
    countReads ((updateData oPollA (some dEx)).2) = 3
  ∧ countAcquires ((updateData oPollA (some dEx)).2) = 1
  ∧ ¬ (countAcquires ((updateData oPollA (some dEx)).2)
        = countReads ((updateData oPollA (some dEx)).2)) := by
  refine ⟨rfl, rfl, ?_⟩
  decide

/-- C8 amended: the poll cycle takes the mutual-exclusion token once for
the whole cycle — the trace of a cycle whose listing succeeded is a single
acquire, then the listing, option fetches and every control read with no
lock event in between, then a single release; a queued write can therefore
interleave only between cycles, never between two reads of one cycle. -/
theorem claim8_amended_lock_per_cycle (o : Oracle) (old : Option CoordData)
    (mons : List Monitor) (hmons : o.listMonitors = .ok mons) :
    ∃ middle : List Event,
      (updateData o old).2 = Event.acquire :: (middle ++ [Event.release])
    ∧ Event.acquire ∉ middle ∧ Event.release ∉ middle := by
  refine ⟨Event.listMons :: (mons.map (fun m => monitorEvents m.id)).flatten,
    ?_, ?_, ?_⟩
  · simp [updateData, hmons]
  · intro h
    rcases List.mem_cons.mp h with h | h
    · cases h
    · exact (monflatten_no_lock mons).1 h
  · intro h
    rcases List.mem_cons.mp h with h | h
    · cases h
    · exact (monflatten_no_lock mons).2 h

/-- C8 witness: the single-acquire trace shape at the concrete healthy
cycle. -/
theorem claim8_witness :
    ∃ middle : List Event,
      (updateData oPollA (some dEx)).2
          = Event.acquire :: (middle ++ [Event.release])
    ∧ Event.acquire ∉ middle ∧ Event.release ∉ middle :=
  claim8_amended_lock_per_cycle oPollA (some dEx) [monEx] rfl

/-- C9 counterexample: the option table is not immutable after discovery —
the first cycle installs `optsA` for monitor 0 and the second cycle, with
the node now advertising `optsB`, overwrites it. -/
theorem claim9_counterexample :
    (coordStep oPollA cInit).data.map
        (fun d => lookupA d.input_source_options 0) = some (some optsA)
  ∧ (coordStep oPollB (coordStep oPollA cInit)).data.map
        (fun d => lookupA d.input_source_options 0) = some (some optsB)
  ∧ optsA ≠ optsB := by
  refine ⟨rfl, rfl, ?_⟩
  decide

/-- C9 amended: the option table is re-fetched on every poll cycle — a
cycle whose fetch for `mid` succeeds overwrites the table with the freshly
fetched mapping, and a cycle whose fetch for `mid` fails leaves the
previous table in place. -/
theorem claim9_amended_options_refetch (o oF : Oracle) (old oldF : CoordData)
    (mons monsF : List Monitor) (mid : Nat) (opts : List (String × String))
    (e : String) (d' dF' : CoordData)
    (hmons : o.listMonitors = .ok mons) (hmem : mid ∈ mons.map Monitor.id)
    (hfetch : o.fetchOptions mid = .ok opts)
    (hres : (updateData o (some old)).1 = .ok d')
    (hmonsF : oF.listMonitors = .ok monsF)
    (hfetchF : oF.fetchOptions mid = .error e)
    (hresF : (updateData oF (some oldF)).1 = .ok dF') :
    lookupA d'.input_source_options mid = some opts
  ∧ lookupA dF'.input_source_options mid
      = lookupA oldF.input_source_options mid := by
  refine ⟨?_, updateData_optionsLookup_noWrite oF oldF monsF mid e dF'
    hmonsF hfetchF hresF⟩
  exact updateData_establish o (some old) mons mid d'
    (fun d => lookupA d.input_source_options mid = some opts) hmons hres
    (fun d mid' hd =>
      processMonitor_optionsLookup_stable o mid opts hfetch d mid' hd)
    (fun d => processMonitor_optionsLookup_establish o mid opts hfetch d)
    hmem

/-- C9 witness: over `dEx` (table `optsA`) a successful fetch installs
`optsB` and a timed-out fetch keeps the old table. -/
theorem claim9_witness :
    lookupA (cycleData oPollB (some dEx)).input_source_options 0 = some optsB
  ∧ lookupA (cycleData oC9F (some dEx)).input_source_options 0
      = lookupA dEx.input_source_options 0 :=
  claim9_amended_options_refetch oPollB oC9F dEx dEx [monEx] [monEx] 0 optsB
    "timeout" (cycleData oPollB (some dEx)) (cycleData oC9F (some dEx))
    rfl (by decide) rfl rfl rfl rfl rfl

/-- C10: a read that succeeds at the transport level but carries a null
body value for the control leaves the previously cached value of that
pair unchanged — the null-returning step is a no-op on the data. -/
theorem claim10_null_read (o : Oracle) (old : CoordData)
    (mons : List Monitor) (mid0 : Nat) (ctrl0 : String) (d' : CoordData)
    (hmons : o.listMonitors = .ok mons)
    (hnull : o.readCtrl mid0 ctrl0 = .ok none)
    (hres : (updateData o (some old)).1 = .ok d') :
    lookup2 d'.controls ctrl0 mid0 = lookup2 old.controls ctrl0 mid0
  ∧ ∀ d : CoordData, readOneCtrl o mid0 ctrl0 d = d := by
  have hno : ∀ v, o.readCtrl mid0 ctrl0 ≠ .ok (some v) := by
    intro v hv
    rw [hnull] at hv
    exact Option.noConfusion (Except.ok.inj hv)
  refine ⟨updateData_lookup2_noWrite o old mons mid0 ctrl0 d' hmons hno hres,
    ?_⟩
  intro d
  simp [readOneCtrl, hnull]

/-- C10 witness: the input-source endpoint answering 200 with a null value
leaves the cached 0x0f in place. -/
theorem claim10_witness :
    lookup2 (cycleData oC10 (some dEx)).controls "input_source" 0
        = lookup2 dEx.controls "input_source" 0
  ∧ ∀ d : CoordData, readOneCtrl oC10 0 "input_source" d = d :=
  claim10_null_read oC10 dEx [monEx] 0 "input_source"
    (cycleData oC10 (some dEx)) rfl rfl rfl

end BrightDock
